import Mathlib

/-!
Verification of the DataDreamers ETL-orchestration repository.

We shallowly embed the state-bearing tool functions of the repository
(`ETLTools.create_etl_job`, `ETLTools.check_etl_status`, `append_to_state`,
`set_initial_target_table_info`) together with the loop/orchestrator
configuration, and prove the testable properties of the specification
against the embedding.

Python strings are modelled as `List Char` (`PyStr`) where character-level
parsing matters; opaque identifiers (table names, job ids, SQL text) are
modelled as Lean `String`s.  Fallible Python code (code that can raise) is
embedded with `Except`; external collaborators (the BigQuery client) are
passed in as explicit oracle arguments.
-/

namespace DataDreamers

/-- Python strings, for the character-level parsing tools. -/
abbrev PyStr := List Char

/-- Python's `\s` / `str.split()` whitespace over ASCII. -/
def isPySpace (c : Char) : Bool :=
  c = ' ' || c = '\t' || c = '\n' || c = '\r' || c = '\x0b' || c = '\x0c'

/-- Python's `\w` over ASCII: letters, digits, underscore. -/
def isWordChar (c : Char) : Bool :=
  c.isAlpha || c.isDigit || c = '_'

/-- The character class `[\w.-]` of the table-identifier capture group. -/
def isCaptureChar (c : Char) : Bool :=
  isWordChar c || c = '.' || c = '-'

/-- Python `str.strip()`: remove leading and trailing whitespace. -/
def pyStrip (s : PyStr) : PyStr :=
  ((s.dropWhile isPySpace).reverse.dropWhile isPySpace).reverse

/-- Python `str.split(sep)` for a single-character separator: split at every
occurrence of `sep`, keeping empty pieces, always at least one piece. -/
def pySplitOn (sep : Char) : PyStr → List PyStr
  | [] => [[]]
  | c :: rest =>
    let parts := pySplitOn sep rest
    if c = sep then [] :: parts
    else
      match parts with
      | p :: ps => (c :: p) :: ps
      | [] => [[c]]

/-- `s.split(sep)[-1]`: the segment after the last separator. -/
def lastSegment (sep : Char) (s : PyStr) : PyStr :=
  (pySplitOn sep s).getLastD []

/-- The first token of Python `str.split()` (whitespace split, empties
dropped): `none` exactly when the string is empty or all-whitespace, in
which case `full_description.split()[0]` raises `IndexError`. -/
def firstWsToken (s : PyStr) : Option PyStr :=
  match s.dropWhile isPySpace with
  | [] => none
  | c :: rest => some ((c :: rest).takeWhile (fun a => !isPySpace a))

/-- `re.search(r"[\w.-]+", tok)`: leftmost maximal run of `[\w.-]` chars. -/
def searchCaptureRun : PyStr → Option PyStr
  | [] => none
  | c :: rest =>
    if isCaptureChar c then some ((c :: rest).takeWhile isCaptureChar)
    else searchCaptureRun rest

/-- Consume a literal case-insensitively (`re.IGNORECASE`). -/
def consumeLitCI : List Char → PyStr → Option PyStr
  | [], s => some s
  | _ :: _, [] => none
  | l :: ls, c :: cs => if c.toLower = l.toLower then consumeLitCI ls cs else none

/-- Consume a maximal nonempty run of whitespace (`\s+`); the tokens that
follow `\s+` in the pattern all begin with non-whitespace characters, so the
maximal-munch here matches Python's backtracking semantics. -/
def consumeWs1 (s : PyStr) : Option PyStr :=
  match s with
  | [] => none
  | c :: rest => if isPySpace c then some (rest.dropWhile isPySpace) else none

/-- The backtick character of the pattern. -/
def backtickChar : Char := '\x60'

/-- Consume one backtick if present (the optional backtick of the pattern;
the characters that may legally follow never include a backtick, so
consuming a present backtick is forced). -/
def consumeBacktick (s : PyStr) : PyStr :=
  match s with
  | c :: rest => if c = backtickChar then rest else c :: rest
  | [] => []

/-- Attempt the pattern
`CREATE(?:\s+OR\s+REPLACE)?\s+TABLE\s+`? `([\w.-]+)` `?\s*(?:\(|\s+AS\s+)`
at the head of `s`, returning the capture group.  Hand-compiled from the
regex in `set_initial_target_table_info`; the character classes of adjacent
pieces are disjoint, so each quantifier is deterministic. -/
def matchCreateTableAt (s : PyStr) : Option PyStr := do
  let r1 ← consumeLitCI "create".toList s
  let r2 :=
    (do
      let a ← consumeWs1 r1
      let b ← consumeLitCI "or".toList a
      let c ← consumeWs1 b
      consumeLitCI "replace".toList c).getD r1
  let r3 ← consumeWs1 r2
  let r4 ← consumeLitCI "table".toList r3
  let r5 ← consumeWs1 r4
  let r6 := consumeBacktick r5
  let cap := r6.takeWhile isCaptureChar
  if cap.isEmpty then none
  else
    let r7 := consumeBacktick (r6.dropWhile isCaptureChar)
    let ws := r7.takeWhile isPySpace
    let r8 := r7.dropWhile isPySpace
    match r8 with
    | '(' :: _ => some cap
    | _ =>
      if ws.isEmpty then none
      else do
        let r9 ← consumeLitCI "as".toList r8
        match r9 with
        | c :: _ => if isPySpace c then some cap else none
        | [] => none

/-- `re.search` of the CREATE TABLE pattern: try every start position from
the left, first success wins. -/
def searchCreateTable : PyStr → Option PyStr
  | [] => none
  | c :: rest =>
    match matchCreateTableAt (c :: rest) with
    | some cap => some cap
    | none => searchCreateTable rest

/-- The parsed-target record stored into session state by
`set_initial_target_table_info`. -/
structure TargetInfo where
  target_table_id : PyStr
  target_table_name : PyStr
  target_schema : PyStr
deriving Repr, DecidableEq

/-- The `DATASET_ID` placeholder used when `DATA_SOURCE` is unset. -/
def mockDatasetId : PyStr := "mock_project.mock_dataset".toList

/-- `set_initial_target_table_info` from
`multi_agent_data_processing/multi_agent_data_processor/agent.py`:
regex-extract the table id; on regex failure fall back to the first
`[\w.-]+` run of `full_description.split()[0]` — which raises `IndexError`
when the input is empty or all-whitespace — and otherwise to the
`unknown_table` placeholder under `DATASET_ID`. -/
def set_initial_target_table_info (datasetId : PyStr) (full_description : PyStr) :
    Except String TargetInfo :=
  match searchCreateTable full_description with
  | some cap =>
    let full_table_id := pyStrip cap
    let table_name := lastSegment '.' full_table_id
    .ok ⟨full_table_id, table_name, pyStrip full_description⟩
  | none =>
    match firstWsToken full_description with
    | none => .error "IndexError: list index out of range"
    | some tok =>
      match searchCaptureRun tok with
      | some full_table_id =>
        .ok ⟨full_table_id, lastSegment '.' full_table_id, pyStrip full_description⟩
      | none =>
        let table_name := "unknown_table".toList
        .ok ⟨datasetId ++ '.' :: table_name, table_name, pyStrip full_description⟩

/-! ## Job registry (`ETLTools`)

`ETLTools.job_memory` maps a target-table id to the handle of the most
recently submitted job.  A Python `dict` assignment is modelled by
prepending to an association list whose lookup takes the first match. -/

/-- The `{job_id, location}` record stored in `job_memory`. -/
structure JobInfo where
  job_id : String
  location : String
deriving Repr, DecidableEq

/-- `ETLTools.job_memory`. -/
abbrev Memory := List (String × JobInfo)

/-- `job_memory[target]` lookup. -/
def memGet (mem : Memory) (target : String) : Option JobInfo :=
  mem.lookup target

/-- `job_memory[target] = info` (dict assignment: later binding shadows). -/
def memSet (mem : Memory) (target : String) (info : JobInfo) : Memory :=
  (target, info) :: mem

/-- The `tool_context.state` keys touched by the multi-agent ETL tools. -/
structure ToolState where
  job_id : Option String
  job_location : Option String
deriving Repr, DecidableEq

/-- A tool's returned dict `{"status": …, "message": …}`. -/
structure ToolResult where
  status : String
  message : String
deriving Repr, DecidableEq

/-- The subset of a BigQuery job the status check reads: `job.state` and
`job.error_result`. -/
structure JobView where
  state : String
  error_result : Option String
deriving Repr, DecidableEq

/-- Step 1 of `ETLTools.check_etl_status`
(`multi_agent_data_processing/multi_agent_data_processor/agent.py`):
look up `job_memory` first, then fall back to the session-state
`job_id`/`job_location` pair — note the fallback ignores which target the
state handle came from. -/
def resolve_job_info (mem : Memory) (st : ToolState) (target_table : String) :
    Option JobInfo :=
  match memGet mem target_table with
  | some job_info => some job_info
  | none =>
    match st.job_id, st.job_location with
    | some j, some l => some ⟨j, l⟩
    | _, _ => none

/-- Step 2 of `ETLTools.check_etl_status`: the `try: client.get_job …`
block, as a function of the poll outcome.  A raising poll is
`Except.error` and is caught by the tool's `try/except`. -/
def status_from_poll (poll : Except String JobView) : ToolResult :=
  match poll with
  | .error e => ⟨"error", "Error checking API: " ++ e⟩
  | .ok job =>
    if job.state = "DONE" then
      match job.error_result with
      | some msg => ⟨"failed", "FAILED: " ++ msg⟩
      | none => ⟨"success", "SUCCESS: The data load is complete."⟩
    else
      ⟨"running", "RUNNING: The job is currently in state " ++ job.state ++ "."⟩

/-- `ETLTools.check_etl_status` (multi-agent variant).  The BigQuery
`get_job` poll is an oracle `api : JobInfo → Except String JobView`. -/
def check_etl_status (mem : Memory) (st : ToolState) (target_table : String)
    (api : JobInfo → Except String JobView) : ToolResult :=
  match resolve_job_info mem st target_table with
  | none =>
    ⟨"error",
      "I don\x27t have a record of a job for \x27" ++ target_table ++
        "\x27. Please ask me to create the job first."⟩
  | some job_info => status_from_poll (api job_info)

/-- `ETLTools.check_etl_status` from `ingestion/etl_agent/agent.py`: same
poll logic but the lookup uses `job_memory` only and the result is a bare
message string. -/
def ingestion_check_etl_status (mem : Memory) (target_table : String)
    (api : JobInfo → Except String JobView) : String :=
  match memGet mem target_table with
  | none =>
    "I don\x27t have a record of a job for \x27" ++ target_table ++
      "\x27. Please ask me to create the job first."
  | some job_info =>
    match api job_info with
    | .error e => "Error checking API: " ++ e
    | .ok job =>
      if job.state = "DONE" then
        match job.error_result with
        | some msg => "FAILED: " ++ msg
        | none => "SUCCESS: The data load is complete."
      else
        "RUNNING: The job is currently in state " ++ job.state ++ "."

/-- `ETLTools.create_etl_job` (multi-agent variant).  The single
`client.query` call is the oracle outcome `engine`; on success the handle is
written to `job_memory[target_table]` and mirrored into session state, on
failure (`except Exception`) an error dict is returned and neither the
registry nor the state is touched. -/
def create_etl_job (mem : Memory) (st : ToolState) (target_table : String)
    (_sql_query : String) (engine : Except String JobInfo) :
    ToolResult × Memory × ToolState :=
  match engine with
  | .ok query_job =>
    (⟨"success",
        "Job successfully submitted. Job ID: " ++ query_job.job_id ++
          ". I have remembered this ID for status checks."⟩,
      memSet mem target_table query_job,
      ⟨some query_job.job_id, some query_job.location⟩)
  | .error e =>
    (⟨"error", "Failed to create job: " ++ e⟩, mem, st)

/-- `create_etl_job` threaded over the stream of successive `client.query`
outcomes: the tool body contains no loop, so one call consumes exactly one
engine outcome and leaves the rest of the stream untouched. -/
def create_etl_job_calls (mem : Memory) (st : ToolState) (target_table : String)
    (sql_query : String) (engine : List (Except String JobInfo)) :
    Option ((ToolResult × Memory × ToolState) × List (Except String JobInfo)) :=
  match engine with
  | [] => none
  | e :: rest => some (create_etl_job mem st target_table sql_query e, rest)

/-- `ETLTools.create_etl_job` from `ingestion/etl_agent/agent.py`: no
session-state mirror, message-string result, same registry write. -/
def ingestion_create_etl_job (mem : Memory) (target_table : String)
    (_sql_query : String) (engine : Except String JobInfo) : String × Memory :=
  match engine with
  | .ok query_job =>
    ("Job successfully submitted. Job ID: " ++ query_job.job_id ++
        ". I have remembered this ID for status checks.",
      memSet mem target_table query_job)
  | .error e => ("Failed to create job: " ++ e, mem)

/-! ## Session state and `append_to_state` -/

/-- A value held in `tool_context.state`: the tools store either a bare
string or a list of strings. -/
inductive StateVal
  | str (s : String)
  | list (l : List String)
deriving Repr, DecidableEq

/-- `tool_context.state` as a key-value map (later bindings shadow). -/
abbrev SessionKV := List (String × StateVal)

/-- `state.get(field)` lookup. -/
def kvGet (st : SessionKV) (field : String) : Option StateVal :=
  st.lookup field

/-- `state[field] = value` assignment. -/
def kvSet (st : SessionKV) (field : String) (v : StateVal) : SessionKV :=
  (field, v) :: st

/-- The `existing_state` computation of `append_to_state`
(`multi_agent_data_processing/multi_agent_data_processor/agent.py`):
`state.get(field, [])`, with a non-list prior value wrapped in a
singleton list by the `isinstance` guard. -/
def existing_list (st : SessionKV) (field : String) : List String :=
  match kvGet st field with
  | some (.list l) => l
  | some (.str s) => [s]
  | none => []

/-- `append_to_state` (multi-agent variant):
`state[field] = existing_state + [response]`. -/
def append_to_state (st : SessionKV) (field : String) (response : String) :
    SessionKV :=
  kvSet st field (.list (existing_list st field ++ [response]))

/-- `append_to_state` from `data_dreamers/agent.py`: no `isinstance` guard,
so a bare-string prior value raises `TypeError` at `existing_state +
[response]`; a list (or absent) prior value appends exactly as in the
multi-agent variant. -/
def dd_append_to_state (st : SessionKV) (field : String) (response : String) :
    Except String SessionKV :=
  match kvGet st field with
  | some (.str _) => .error "TypeError: can only concatenate list to list"
  | some (.list l) => .ok (kvSet st field (.list (l ++ [response])))
  | none => .ok (kvSet st field (.list ([] ++ [response])))

/-- A sequence of `append_to_state` calls, the only session-state writes
available to the planning-pipeline sub-agents (their tool lists are
`append_to_state`, the read-only BigQuery toolset, and `exit_loop`). -/
def applyAppends (st : SessionKV) : List (String × String) → SessionKV
  | [] => st
  | (field, response) :: ops => applyAppends (append_to_state st field response) ops

/-! ## Revision loops -/

/-- Modelled from the spec: what the validate step of a revision round
signals to the loop driver.  The `LoopAgent` runtime that interprets
`exit_loop` lives in the external `google.adk` library, not in this
repository; §4.2 of the spec fixes its contract: `approved`/`rejected` are
the early terminal signals, otherwise the loop continues. -/
inductive LoopSignal
  | next
  | approved
  | rejected
deriving Repr, DecidableEq

/-- Modelled from the spec: the outcome a revision loop reports. -/
inductive LoopOutcome
  | approved
  | rejected
  | exhausted
deriving Repr, DecidableEq

/-- Modelled from the spec: the bounded generate/validate loop driver of
§4.2 (the `LoopAgent` runtime is external to the repository).  `validate i`
is the signal of round `i`; the driver runs at most `fuel` further rounds,
with `done` rounds already performed, and returns the outcome together with
the total number of generate/validate rounds it ran. -/
def runRevisionLoop (validate : Nat → LoopSignal) :
    Nat → Nat → LoopOutcome × Nat
  | 0, done => (.exhausted, done)
  | fuel + 1, done =>
    match validate done with
    | .approved => (.approved, done + 1)
    | .rejected => (.rejected, done + 1)
    | .next => runRevisionLoop validate fuel (done + 1)

/-- Modelled from the spec: a revision loop with an iteration cap, as
configured by the repository's `LoopAgent(…, max_iterations=N)` calls. -/
def revisionLoop (max_iterations : Nat) (validate : Nat → LoopSignal) :
    LoopOutcome × Nat :=
  runRevisionLoop validate max_iterations 0

/-- `plan_revision_loop = LoopAgent(…, max_iterations=2)`. -/
def plan_revision_loop_max_iterations : Nat := 2

/-- `sql_revision_loop = LoopAgent(…, max_iterations=2)`. -/
def sql_revision_loop_max_iterations : Nat := 2

/-- `query_refinement_loop = LoopAgent(…, max_iterations=5)`
(`data_dreamers/agent.py`). -/
def query_refinement_loop_max_iterations : Nat := 5

/-! ## Orchestrator decision table -/

/-- The values the code stores under `plan_approved`: `True` or `"revise"`. -/
inductive PlanApproval
  | approved
  | revise
deriving Repr, DecidableEq

/-- The values the code stores under `sample_approved`: `True` or
`"refine"`. -/
inductive SampleApproval
  | approved
  | refine
deriving Repr, DecidableEq

/-- Modelled from the spec: the session-state fields the orchestrator's
eight guards read (§4.4; the guard table itself is prompt text of
`root_agent`, executed by the external reasoning service). -/
structure OrchState where
  target_schema_requested : Bool
  target_schema : Option String
  plan_approved : Option PlanApproval
  sample_approved : Option SampleApproval
  job_id : Option String
deriving Repr, DecidableEq

/-- Modelled from the spec: the orchestrator-relevant classification of one
external user turn (non-approval plan feedback, non-approval SQL feedback,
or a status request). -/
structure TurnInput where
  gives_plan_feedback : Bool
  gives_sql_feedback : Bool
  asks_status : Bool
deriving Repr, DecidableEq

/-- The eight actions of `root_agent`'s ordered guard list. -/
inductive OrchAction
  | greet_and_request_schema
  | capture_schema
  | invoke_planning_pipeline
  | plan_revision
  | invoke_execution_pipeline
  | sql_revision
  | submit_job
  | report_status
deriving Repr, DecidableEq

/-- Modelled from the spec: guards 1–8 of `root_agent`'s instruction, in
their textual order, each paired with its action. -/
def orchGuards (s : OrchState) (u : TurnInput) : List (Bool × OrchAction) :=
  [ (!s.target_schema_requested, .greet_and_request_schema),
    (s.target_schema.isNone && s.target_schema_requested, .capture_schema),
    (s.target_schema.isSome && s.plan_approved.isNone, .invoke_planning_pipeline),
    (u.gives_plan_feedback, .plan_revision),
    (s.plan_approved == some .approved && s.sample_approved.isNone,
      .invoke_execution_pipeline),
    (u.gives_sql_feedback, .sql_revision),
    (s.plan_approved == some .approved && s.sample_approved == some .approved
        && s.job_id.isNone, .submit_job),
    (s.job_id.isSome && u.asks_status, .report_status) ]

/-- Modelled from the spec: "evaluate conditions in strict order and execute
the FIRST step that matches". -/
def firstMatch? : List (Bool × OrchAction) → Option OrchAction
  | [] => none
  | (b, a) :: rest => if b then some a else firstMatch? rest

/-- One orchestrator turn: the single action selected, if any. -/
def orchestratorTurn (s : OrchState) (u : TurnInput) : Option OrchAction :=
  firstMatch? (orchGuards s u)

/-- The actions the orchestrator actually executes in one turn. -/
def actionsExecuted (s : OrchState) (u : TurnInput) : List OrchAction :=
  (orchestratorTurn s u).toList

/-- The actions that invoke a pipeline or submit a job. -/
def isPipelineOrSubmission : OrchAction → Bool
  | .invoke_planning_pipeline => true
  | .plan_revision => true
  | .invoke_execution_pipeline => true
  | .sql_revision => true
  | .submit_job => true
  | _ => false

/-! ## Concrete fixtures used by witnesses and counterexamples -/

/-- A poll oracle whose job is still running. -/
def apiRunning : JobInfo → Except String JobView :=
  fun _ => .ok ⟨"RUNNING", none⟩

/-- A poll oracle that raises (caught by the tools). -/
def apiDown : JobInfo → Except String JobView :=
  fun _ => .error "network unreachable"

/-- A sample job handle. -/
def jobA : JobInfo := ⟨"job123", "US"⟩

/-- A second sample job handle. -/
def jobB : JobInfo := ⟨"job456", "EU"⟩

/-- The tool outcome of a session whose only submission was for target
`proj.ds.a`. -/
def submitOnlyA : ToolResult × Memory × ToolState :=
  create_etl_job [] ⟨none, none⟩ "proj.ds.a" "SELECT 1" (.ok jobA)

/-- A registry holding only a handle for `proj.ds.a`. -/
def memOnlyA : Memory := [("proj.ds.a", jobA)]

/-- Session state at the start of a Planning Pipeline invocation entered
with `plan_approved = revise` and pending feedback. -/
def planFeedbackPendingState : SessionKV :=
  [("plan_approved", StateVal.str "revise"),
   ("plan_feedback", StateVal.list ["prefer the orders table"])]

/-- The session-state writes of one planning invocation that consumes the
pending feedback (every write goes through `append_to_state`). -/
def planningInvocationWrites : List (String × String) :=
  [("transformation_plan", "revised plan using the orders table")]

/-- A session state with one SQL revision and a bare-string feedback key. -/
def auditState : SessionKV :=
  [("sql_query", StateVal.list ["SELECT 1"]),
   ("plan_feedback", StateVal.str "fb")]

/-! ## Helper lemmas -/

theorem pySplitOn_ne_nil (sep : Char) (s : PyStr) : pySplitOn sep s ≠ [] := by
  cases s with
  | nil => simp [pySplitOn]
  | cons c rest =>
    simp only [pySplitOn]
    by_cases hc : c = sep
    · simp [hc]
    · simp only [hc, if_false]
      cases h : pySplitOn sep rest <;> simp

theorem two_le_length_pySplitOn (sep : Char) :
    ∀ s : PyStr, sep ∈ s → 2 ≤ (pySplitOn sep s).length := by
  intro s
  induction s with
  | nil => simp
  | cons c rest ih =>
    intro hmem
    simp only [pySplitOn]
    by_cases hc : c = sep
    · have h0 : 0 < (pySplitOn sep rest).length :=
        List.length_pos.mpr (pySplitOn_ne_nil sep rest)
      simp only [hc, if_true]
      simpa using h0
    · have hmem' : sep ∈ rest := by
        rcases List.mem_cons.mp hmem with h | h
        · exact absurd h.symm hc
        · exact h
      have h2 := ih hmem'
      simp only [hc, if_false]
      cases h : pySplitOn sep rest with
      | nil => exact absurd h (pySplitOn_ne_nil sep rest)
      | cons p ps =>
        rw [h] at h2
        simpa using h2

theorem getLastD_ne_nil {α : Type} (l : List α) (a b : α) (h : l ≠ []) :
    l.getLastD a = l.getLastD b := by
  cases l with
  | nil => exact absurd rfl h
  | cons x xs => rw [List.getLastD_cons, List.getLastD_cons]

theorem getLastD_pySplitOn_append (sep : Char) (t : PyStr) :
    ∀ d : PyStr,
      (pySplitOn sep (d ++ sep :: t)).getLastD [] = (pySplitOn sep t).getLastD [] := by
  intro d
  induction d with
  | nil =>
    have hstep : pySplitOn sep (sep :: t) = [] :: pySplitOn sep t := by
      simp [pySplitOn]
    rw [List.nil_append, hstep, List.getLastD_cons]
  | cons c d' ih =>
    simp only [List.cons_append, pySplitOn]
    by_cases hc : c = sep
    · rw [if_pos hc, List.getLastD_cons]
      exact ih
    · rw [if_neg hc]
      cases h : pySplitOn sep (d' ++ sep :: t) with
      | nil => exact absurd h (pySplitOn_ne_nil _ _)
      | cons p ps =>
        have hps : ps ≠ [] := by
          have h2 := two_le_length_pySplitOn sep (d' ++ sep :: t) (by simp)
          rw [h] at h2
          intro hnil
          rw [hnil] at h2
          simp at h2
        rw [List.getLastD_cons, getLastD_ne_nil ps (c :: p) p hps,
          ← List.getLastD_cons]
        rw [← h]
        exact ih

theorem lastSegment_append (t d : PyStr) :
    lastSegment '.' (d ++ '.' :: t) = lastSegment '.' t :=
  getLastD_pySplitOn_append '.' t d

theorem firstMatch?_eq_head_filter :
    ∀ l : List (Bool × OrchAction),
      firstMatch? l = ((l.filter (fun p => p.1)).map (fun p => p.2)).head? := by
  intro l
  induction l with
  | nil => rfl
  | cons p rest ih =>
    obtain ⟨b, a⟩ := p
    cases b
    · simpa [firstMatch?, List.filter_cons] using ih
    · simp [firstMatch?, List.filter_cons]

theorem runRevisionLoop_exhausts (validate : Nat → LoopSignal) :
    ∀ fuel start : Nat,
      (∀ i, start ≤ i → i < start + fuel → validate i = .next) →
      runRevisionLoop validate fuel start = (.exhausted, start + fuel) := by
  intro fuel
  induction fuel with
  | zero => intro start _; simp [runRevisionLoop]
  | succ n ih =>
    intro start h
    have hv : validate start = .next := h start le_rfl (by omega)
    simp only [runRevisionLoop, hv]
    have := ih (start + 1) (fun i h1 h2 => h i (by omega) (by omega))
    rw [this]
    congr 1
    omega

theorem existing_list_append_to_state (st : SessionKV) (f g r : String) :
    existing_list (append_to_state st f r) g =
      if g = f then existing_list st f ++ [r] else existing_list st g := by
  by_cases h : g = f
  · subst h
    simp [existing_list, append_to_state, kvSet, kvGet, List.lookup]
  · simp only [if_neg h]
    have hbeq : (g == f) = false := beq_false_of_ne h
    simp [existing_list, append_to_state, kvSet, kvGet, List.lookup, hbeq]

theorem existing_list_mono (ops : List (String × String)) :
    ∀ (st : SessionKV) (f : String),
      existing_list st f <+: existing_list (applyAppends st ops) f := by
  induction ops with
  | nil => intro st f; exact List.prefix_refl _
  | cons op rest ih =>
    intro st f
    obtain ⟨g, r⟩ := op
    have step : existing_list st f <+: existing_list (append_to_state st g r) f := by
      rw [existing_list_append_to_state]
      by_cases h : f = g
      · subst h
        simp only [if_pos rfl]
        exact List.prefix_append _ _
      · simp [h]
    exact step.trans (ih (append_to_state st g r) f)

/-! ## Claim theorems -/

/-- C1 (counterexample): after a submission for target `proj.ds.a` only, the
multi-agent `check_etl_status` queried for the never-submitted target
`proj.ds.b` does not return the unknown-target error — the session-state
fallback reports the running status of the `proj.ds.a` job instead. -/
theorem check_etl_status_state_fallback_cex :
    memGet submitOnlyA.2.1 "proj.ds.b" = none ∧
    check_etl_status submitOnlyA.2.1 submitOnlyA.2.2 "proj.ds.b" apiRunning =
      ⟨"running", "RUNNING: The job is currently in state RUNNING."⟩ :=
  ⟨rfl, rfl⟩

/-- C1 (amended): status polling for a target with no registry entry fails
with the no-record error provided the session state holds no complete job
handle from an earlier submission; in the ingestion variant, whose lookup
uses the per-target registry only, the unknown-target error is returned
unconditionally whenever the target has never been submitted. -/
theorem check_etl_status_unknown_target (mem : Memory) (st : ToolState)
    (target_table : String) (api : JobInfo → Except String JobView)
    (hmem : memGet mem target_table = none)
    (hst : st.job_id = none ∨ st.job_location = none) :
    check_etl_status mem st target_table api =
      ⟨"error", "I don\x27t have a record of a job for \x27" ++ target_table ++
        "\x27. Please ask me to create the job first."⟩ ∧
    ∀ (mem2 : Memory) (t2 : String) (api2 : JobInfo → Except String JobView),
      memGet mem2 t2 = none →
      ingestion_check_etl_status mem2 t2 api2 =
        "I don\x27t have a record of a job for \x27" ++ t2 ++
          "\x27. Please ask me to create the job first." := by
  constructor
  · obtain ⟨ji, jl⟩ := st
    have hnone : resolve_job_info mem ⟨ji, jl⟩ target_table = none := by
      rcases hst with h | h
      · simp only at h
        subst h
        simp [resolve_job_info, hmem]
      · simp only at h
        subst h
        cases ji <;> simp [resolve_job_info, hmem]
    simp [check_etl_status, hnone]
  · intro mem2 t2 api2 h2
    simp [ingestion_check_etl_status, h2]

/-- C1 witness: in a fresh session (empty registry, no state handle) the
status query returns the unknown-target error in both variants. -/
theorem check_etl_status_unknown_target_witness :
    check_etl_status [] ⟨none, none⟩ "proj.ds.b" apiRunning =
      ⟨"error", "I don\x27t have a record of a job for \x27" ++ "proj.ds.b" ++
        "\x27. Please ask me to create the job first."⟩ ∧
    ingestion_check_etl_status [] "proj.ds.b" apiRunning =
      "I don\x27t have a record of a job for \x27" ++ "proj.ds.b" ++
        "\x27. Please ask me to create the job first." := by
  have h := check_etl_status_unknown_target [] ⟨none, none⟩ "proj.ds.b"
    apiRunning rfl (Or.inl rfl)
  exact ⟨h.1, h.2 [] "proj.ds.b" apiRunning rfl⟩

/-- C2: both revision loops are configured with `max_iterations = 2`, and a
revision loop whose first `N` validate rounds all signal continuation runs
exactly `N` generate/validate rounds and terminates exhausted — never an
(N+1)-th round, never approving. -/
theorem revision_loop_exhausts_after_cap :
    plan_revision_loop_max_iterations = 2 ∧
    sql_revision_loop_max_iterations = 2 ∧
    ∀ (N : Nat) (validate : Nat → LoopSignal),
      (∀ i, i < N → validate i = .next) →
      revisionLoop N validate = (.exhausted, N) := by
  refine ⟨rfl, rfl, ?_⟩
  intro N validate h
  have := runRevisionLoop_exhausts validate N 0 (fun i _ h2 => h i (by omega))
  simpa [revisionLoop] using this

/-- C2 witness: with the configured cap of 2 and no terminal signal, the
loop runs exactly two rounds and exhausts. -/
theorem revision_loop_exhausts_after_cap_witness :
    plan_revision_loop_max_iterations = 2 ∧
    revisionLoop 2 (fun _ => LoopSignal.next) = (LoopOutcome.exhausted, 2) :=
  ⟨revision_loop_exhausts_after_cap.1,
    revision_loop_exhausts_after_cap.2.2 2 (fun _ => .next) (fun _ _ => rfl)⟩

/-- C3: on each turn the orchestrator executes exactly the action of the
first satisfied guard of its ordered eight-guard table (and nothing when no
guard is satisfied), so at most one action — in particular at most one
pipeline invocation or job submission — occurs per turn. -/
theorem orchestrator_first_match_single_action (s : OrchState) (u : TurnInput) :
    actionsExecuted s u =
      (((orchGuards s u).filter (fun p => p.1)).map (fun p => p.2)).take 1 ∧
    (actionsExecuted s u).length ≤ 1 ∧
    (actionsExecuted s u).countP (fun a => isPipelineOrSubmission a) ≤ 1 ∧
    (actionsExecuted s u).count OrchAction.submit_job ≤ 1 := by
  have h1 : actionsExecuted s u =
      (((orchGuards s u).filter (fun p => p.1)).map (fun p => p.2)).take 1 := by
    unfold actionsExecuted orchestratorTurn
    rw [firstMatch?_eq_head_filter]
    generalize ((orchGuards s u).filter (fun p => p.1)).map (fun p => p.2) = L
    cases L <;> rfl
  have hlen : (actionsExecuted s u).length ≤ 1 := by
    cases horch : orchestratorTurn s u <;> simp [actionsExecuted, horch]
  exact ⟨h1, hlen, le_trans (List.countP_le_length _) hlen,
    le_trans (List.count_le_length _ _) hlen⟩

/-- C4: the claim is refuted by the code: the planning agents can write
session state only through `append_to_state`, which extends the stored list
and never removes a key, so pending `plan_feedback` is still present (with
the consumed feedback) after any planning-invocation write sequence —
contrary to the agent instruction "Clear the plan_feedback state after
using it". -/
theorem plan_feedback_not_cleared :
    (∀ (st : SessionKV) (ops : List (String × String)) (field : String),
        existing_list st field <+: existing_list (applyAppends st ops) field) ∧
    kvGet (applyAppends planFeedbackPendingState planningInvocationWrites)
        "plan_feedback" = some (.list ["prefer the orders table"]) :=
  ⟨fun st ops field => existing_list_mono ops st field, rfl⟩

/-- C5: two successful submissions for the same target in sequence leave
the registry (and the mirrored session state) holding exactly the second
handle, and a subsequent status query polls only that second handle. -/
theorem create_etl_job_overwrites (mem : Memory) (st : ToolState)
    (target sql1 sql2 : String) (h1 h2 : JobInfo)
    (api : JobInfo → Except String JobView) :
    memGet (create_etl_job (create_etl_job mem st target sql1 (.ok h1)).2.1
        (create_etl_job mem st target sql1 (.ok h1)).2.2 target sql2 (.ok h2)).2.1
        target = some h2 ∧
    (create_etl_job (create_etl_job mem st target sql1 (.ok h1)).2.1
        (create_etl_job mem st target sql1 (.ok h1)).2.2 target sql2 (.ok h2)).2.2 =
      ⟨some h2.job_id, some h2.location⟩ ∧
    check_etl_status (create_etl_job (create_etl_job mem st target sql1 (.ok h1)).2.1
        (create_etl_job mem st target sql1 (.ok h1)).2.2 target sql2 (.ok h2)).2.1
      (create_etl_job (create_etl_job mem st target sql1 (.ok h1)).2.1
        (create_etl_job mem st target sql1 (.ok h1)).2.2 target sql2 (.ok h2)).2.2
      target api = status_from_poll (api h2) := by
  refine ⟨?_, rfl, ?_⟩ <;>
    simp [create_etl_job, memSet, memGet, check_etl_status, resolve_job_info,
      List.lookup]

/-- C6: for a registered target the status check is total over every poll
outcome: a raising poll is returned as an error-status result carrying the
reason, and the result status is always one of the four documented values;
the ingestion variant likewise returns the poll error as a message. -/
theorem check_etl_status_never_raises (mem : Memory) (st : ToolState)
    (target : String) (api : JobInfo → Except String JobView) (ji : JobInfo)
    (hres : resolve_job_info mem st target = some ji) :
    (∀ e, api ji = .error e →
        check_etl_status mem st target api =
          ⟨"error", "Error checking API: " ++ e⟩) ∧
    (check_etl_status mem st target api).status ∈
      (["running", "success", "failed", "error"] : List String) ∧
    ∀ (mem2 : Memory) (t2 : String) (api2 : JobInfo → Except String JobView)
      (ji2 : JobInfo) (e2 : String),
      memGet mem2 t2 = some ji2 → api2 ji2 = .error e2 →
      ingestion_check_etl_status mem2 t2 api2 = "Error checking API: " ++ e2 := by
  refine ⟨?_, ?_, ?_⟩
  · intro e he
    simp [check_etl_status, hres, status_from_poll, he]
  · simp only [check_etl_status, hres]
    cases hapi : api ji with
    | error e => simp [status_from_poll]
    | ok job =>
      simp only [status_from_poll]
      by_cases hdone : job.state = "DONE"
      · cases herr : job.error_result <;> simp [hdone, herr]
      · simp [hdone]
  · intro mem2 t2 api2 ji2 e2 hm2 he2
    simp [ingestion_check_etl_status, hm2, he2]

/-- C6 witness: a registered target whose poll raises yields the error
result, in both variants. -/
theorem check_etl_status_never_raises_witness :
    check_etl_status memOnlyA ⟨none, none⟩ "proj.ds.a" apiDown =
      ⟨"error", "Error checking API: " ++ "network unreachable"⟩ ∧
    ingestion_check_etl_status memOnlyA "proj.ds.a" apiDown =
      "Error checking API: " ++ "network unreachable" := by
  have h := check_etl_status_never_raises memOnlyA ⟨none, none⟩ "proj.ds.a"
    apiDown jobA rfl
  exact ⟨h.1 "network unreachable" rfl,
    h.2.2 memOnlyA "proj.ds.a" apiDown jobA "network unreachable" rfl rfl⟩

/-- C7: when the engine submission fails, `create_etl_job` returns an
error-status result carrying the reason, consumes exactly one engine
outcome (no retry: the rest of the outcome stream is returned untouched),
and leaves both the registry and the session state unchanged; the ingestion
variant likewise. -/
theorem create_etl_job_failure_no_mutation (mem : Memory) (st : ToolState)
    (target sql e : String) (rest : List (Except String JobInfo)) :
    create_etl_job_calls mem st target sql (.error e :: rest) =
      some ((⟨"error", "Failed to create job: " ++ e⟩, mem, st), rest) ∧
    ingestion_create_etl_job mem target sql (.error e) =
      ("Failed to create job: " ++ e, mem) :=
  ⟨rfl, rfl⟩

/-- C8: the claim is refuted on empty (or all-whitespace) input: the CREATE
TABLE regex extracts nothing, and the fallback `full_description.split()[0]`
raises `IndexError` instead of storing a placeholder identifier and
returning success. -/
theorem set_initial_target_table_info_raises_on_empty :
    searchCreateTable [] = none ∧
    set_initial_target_table_info mockDatasetId [] =
      .error "IndexError: list index out of range" ∧
    set_initial_target_table_info mockDatasetId "   ".toList =
      .error "IndexError: list index out of range" :=
  ⟨rfl, rfl, rfl⟩

/-- C9: `append_to_state` only appends: the new value of the field is the
prior list (a bare-string prior wrapped in a singleton) with the response
as new last element, the prior list is a prefix of the new value, other
fields are untouched; the `data_dreamers` variant appends identically on
list-valued priors. -/
theorem append_to_state_append_only (st : SessionKV) (field response : String) :
    kvGet (append_to_state st field response) field =
      some (.list (existing_list st field ++ [response])) ∧
    (∀ l, kvGet st field = some (.list l) →
        kvGet (append_to_state st field response) field =
          some (.list (l ++ [response])) ∧
        l <+: l ++ [response] ∧
        (l ++ [response]).getLast? = some response ∧
        dd_append_to_state st field response =
          .ok (kvSet st field (.list (l ++ [response])))) ∧
    (∀ s, kvGet st field = some (.str s) →
        kvGet (append_to_state st field response) field =
          some (.list ([s] ++ [response]))) ∧
    ∀ g, g ≠ field → kvGet (append_to_state st field response) g = kvGet st g := by
  have hself : kvGet (append_to_state st field response) field =
      some (.list (existing_list st field ++ [response])) := by
    simp [append_to_state, kvSet, kvGet, List.lookup]
  refine ⟨hself, ?_, ?_, ?_⟩
  · intro l hl
    refine ⟨?_, List.prefix_append _ _, List.getLast?_concat _, ?_⟩
    · rw [hself]
      simp [existing_list, hl]
    · simp [dd_append_to_state, hl]
  · intro s hs
    rw [hself]
    simp [existing_list, hs]
  · intro g hg
    have hbeq : (g == field) = false := beq_false_of_ne hg
    simp [append_to_state, kvSet, kvGet, List.lookup, hbeq]

/-- C9 witness: appending a second SQL revision keeps the first as a prefix
and leaves the unrelated feedback key unchanged. -/
theorem append_to_state_append_only_witness :
    kvGet (append_to_state auditState "sql_query" "SELECT 2") "sql_query" =
      some (.list (["SELECT 1"] ++ ["SELECT 2"])) ∧
    (["SELECT 1"] ++ ["SELECT 2"] : List String).getLast? = some "SELECT 2" ∧
    kvGet (append_to_state auditState "sql_query" "SELECT 2") "plan_feedback" =
      kvGet auditState "plan_feedback" := by
  have h := append_to_state_append_only auditState "sql_query" "SELECT 2"
  have h2 := h.2.1 ["SELECT 1"] rfl
  exact ⟨h2.1, h2.2.2.1, h.2.2.2 "plan_feedback" (by decide)⟩

/-- C10: whenever `set_initial_target_table_info` returns successfully — in
the regex branch, the first-token fallback, and the `unknown_table`
placeholder branch alike — the stored table name is the segment of the
stored table id after its last dot, and the stored schema is the
whitespace-stripped input. -/
theorem set_initial_target_table_info_ok_invariants (datasetId s : PyStr)
    (info : TargetInfo)
    (h : set_initial_target_table_info datasetId s = .ok info) :
    info.target_table_name = lastSegment '.' info.target_table_id ∧
    info.target_schema = pyStrip s := by
  cases hre : searchCreateTable s with
  | some cap =>
    simp only [set_initial_target_table_info, hre] at h
    cases h
    exact ⟨rfl, rfl⟩
  | none =>
    cases htok : firstWsToken s with
    | none => simp [set_initial_target_table_info, hre, htok] at h
    | some tok =>
      cases hrun : searchCaptureRun tok with
      | some ftid =>
        simp only [set_initial_target_table_info, hre, htok, hrun] at h
        cases h
        exact ⟨rfl, rfl⟩
      | none =>
        simp only [set_initial_target_table_info, hre, htok, hrun] at h
        cases h
        refine ⟨?_, rfl⟩
        rw [lastSegment_append]
        rfl

/-- C10 witness: the invariants evaluated on a concrete regex-branch
input. -/
theorem set_initial_target_table_info_ok_invariants_witness :
    ("b".toList : PyStr) = lastSegment '.' "a.b".toList ∧
    ("CREATE TABLE a.b(x".toList : PyStr) =
      pyStrip "CREATE TABLE a.b(x".toList := by
  have h := set_initial_target_table_info_ok_invariants mockDatasetId
    "CREATE TABLE a.b(x".toList
    ⟨"a.b".toList, "b".toList, "CREATE TABLE a.b(x".toList⟩ rfl
  exact h

end DataDreamers
